import Mathlib

/-!
Shallow embedding of the todo-app-api backend (Django REST framework project):
user registration, login with an authentication cache, profile update,
logout and token refresh, and per-user task CRUD.  Definitions are
translated from the source files under app/user and app/task; the JWT
token layer (simplejwt) and the settings module are not in the repository
and are modelled from the spec where needed.
-/

namespace TodoApp

/-- Decidable equality of Except values, used to evaluate the endpoint
models on concrete inputs. -/
instance {ε α : Type} [DecidableEq ε] [DecidableEq α] : DecidableEq (Except ε α) := fun x y =>
  match x, y with
  | .ok a, .ok b =>
    if h : a = b then .isTrue (by rw [h])
    else .isFalse (by intro hh; cases hh; exact h rfl)
  | .ok _, .error _ => .isFalse (by intro hh; cases hh)
  | .error _, .ok _ => .isFalse (by intro hh; cases hh)
  | .error e, .error f =>
    if h : e = f then .isTrue (by rw [h])
    else .isFalse (by intro hh; cases hh; exact h rfl)

/-- A persisted user record (core/models.py: class User).  The password is
stored only as a hash (set_password). -/
structure User where
  id : Nat
  email : String
  name : String
  passwordHash : Nat
  is_active : Bool
  created_at : Nat
  updated_at : Nat
deriving DecidableEq

/-- Stand-in for the external one-way password hasher (Django
set_password / check_password delegate to an external primitive). -/
def hashPassword (pw : String) : Nat :=
  pw.data.foldl (fun acc c => (acc * 131 + c.toNat) % 1000000007) 7

/-- check_password: verify a plaintext against the stored hash. -/
def checkPassword (pw : String) (stored : Nat) : Bool :=
  hashPassword pw == stored

/-- The shared Django cache: list of (key, stored user snapshot, expiry). -/
structure Cache where
  entries : List (String × User × Nat)
deriving DecidableEq

/-- cache.get(key) at time now: the stored value if present and unexpired. -/
def cacheGet (c : Cache) (key : String) (now : Nat) : Option User :=
  match c.entries.find? (fun e => e.1 == key) with
  | some (_, u, exp) => if now < exp then some u else none
  | none => none

/-- cache.set(key, value, timeout) at time now. -/
def cacheSet (c : Cache) (key : String) (u : User) (timeout : Nat) (now : Nat) : Cache :=
  ⟨(key, u, now + timeout) :: c.entries.filter (fun e => e.1 != key)⟩

/-- cache.delete(key). -/
def cacheDelete (c : Cache) (key : String) : Cache :=
  ⟨c.entries.filter (fun e => e.1 != key)⟩

/-- The user table of the relational store. -/
abbrev DB := List User

/-- Lookup a user by email (USERNAME_FIELD = email). -/
def findByEmail (db : DB) (email : String) : Option User :=
  db.find? (fun u => u.email == email)

/-- Django authenticate with the default ModelBackend: look the user up by
email, check the password, and require an active account
(user_can_authenticate). -/
def authenticate (db : DB) (email password : String) : Option User :=
  match findByEmail db email with
  | some u => if checkPassword password u.passwordHash && u.is_active then some u else none
  | none => none

/-- Deactivate the stored record of the user with the given id. -/
def deactivateUser (db : DB) (uid : Nat) : DB :=
  db.map (fun v => if v.id == uid then { v with is_active := false } else v)

/-- Errors raised by AuthTokenSerializer.validate; all carry code
authorization. -/
inductive AuthErr where
  | authz (msg : String)
deriving DecidableEq

/-- AuthTokenSerializer.validate (user/serializers.py): try the cache
first under key user_auth_{email}; on a miss run authenticate and, on
success, populate the cache with a 300 second timeout; reject when no
user was obtained or the obtained user is inactive.  On a cache hit the
submitted password is not consulted. -/
def authValidate (db : DB) (cache : Cache) (now : Nat) (email password : String) :
    Except AuthErr (User × Cache) :=
  if email = "" ∨ password = "" then
    .error (.authz "Please provide both email and password.")
  else
    let cacheKey := "user_auth_" ++ email
    let found :=
      match cacheGet cache cacheKey now with
      | some u => (some u, cache)
      | none =>
        match authenticate db email password with
        | some u => (some u, cacheSet cache cacheKey u 300 now)
        | none => (none, cache)
    match found with
    | (none, _) => .error (.authz "Invalid credentials.")
    | (some u, c2) =>
      if !u.is_active then .error (.authz "User account is disabled.")
      else .ok (u, c2)

/-- Declared serializer fields of UserSerializer with their write_only
flags (user/serializers.py Meta.fields and the field declarations). -/
def userSerializerFields : List (String × Bool) :=
  [("id", false), ("name", false), ("email", false),
   ("password", true), ("confirm_password", true),
   ("created_at", false), ("updated_at", false)]

/-- Readable value of a user field, rendered for the response body. -/
def userFieldValue (u : User) : String → String
  | "id" => toString u.id
  | "name" => u.name
  | "email" => u.email
  | "created_at" => toString u.created_at
  | "updated_at" => toString u.updated_at
  | _ => ""

/-- dict assignment ret[k] = v on an association list. -/
def setKey (l : List (String × String)) (k v : String) : List (String × String) :=
  if l.any (fun kv => kv.1 == k) then
    l.map (fun kv => if kv.1 == k then (k, v) else kv)
  else l ++ [(k, v)]

/-- UserSerializer.to_representation: the base representation keeps the
non write_only fields, then password and confirm_password are popped and
the timestamp fields reassigned. -/
def to_representation (u : User) : List (String × String) :=
  let base := (userSerializerFields.filter (fun f => !f.2)).map
    (fun f => (f.1, userFieldValue u f.1))
  let afterPop :=
    (base.filter (fun kv => kv.1 != "password")).filter
      (fun kv => kv.1 != "confirm_password")
  setKey (setKey afterPop "created_at" (toString u.created_at))
    "updated_at" (toString u.updated_at)

/-- A login request body; a component is none when the field is absent. -/
structure LoginRequest where
  email : Option String
  password : Option String
deriving DecidableEq

/-- DRF field validation of AuthTokenSerializer: email and password are
required and may not be blank; the offending field names are collected. -/
def requestFieldErrors (req : LoginRequest) : List String :=
  (match req.email with
   | none => ["email"]
   | some e => if e = "" then ["email"] else []) ++
  (match req.password with
   | none => ["password"]
   | some p => if p = "" then ["password"] else [])

/-- Outcome of LoginView.post: 200 with the user representation, 400
naming the invalid fields, or 401 with the error body built from the
authorization-coded validation error. -/
inductive LoginResponse where
  | success (userRepr : List (String × String))
  | badRequest (fields : List String)
  | unauthorized (errorBody : String)
deriving DecidableEq

/-- HTTP status of a login response. -/
def LoginResponse.statusCode : LoginResponse → Nat
  | .success _ => 200
  | .badRequest _ => 400
  | .unauthorized _ => 401

/-- LoginView.post (user/views.py): field validation runs first inside
is_valid; a validation error whose code is authorization becomes a 401
with body error = message, other validation errors propagate as a 400
naming the fields; on success the response carries the token pair and the
UserSerializer representation of the user. -/
def loginEndpoint (db : DB) (cache : Cache) (now : Nat) (req : LoginRequest) :
    LoginResponse × Cache :=
  if (requestFieldErrors req).isEmpty then
    match req.email, req.password with
    | some e, some p =>
      match authValidate db cache now e p with
      | .ok (u, c2) => (.success (to_representation u), c2)
      | .error (.authz msg) => (.unauthorized msg, cache)
    | _, _ => (.badRequest (requestFieldErrors req), cache)
  else (.badRequest (requestFieldErrors req), cache)

/-- Field-level validation failure of UserSerializer, naming the field. -/
inductive RegErr where
  | validation (field : String)
deriving DecidableEq

/-- UserSerializer validation and create (user/serializers.py together
with CreateUserView): passwords must match, the password field has
min_length 8, the name min_length 2, and the email must be unused; on
success a user with the hashed password is persisted and the cache key
user_{id} is deleted, and the response body is the public
representation. -/
def registerUser (db : DB) (cache : Cache) (nextId now : Nat)
    (name email pw confirmPw : String) :
    Except RegErr (List (String × String) × DB × Cache) :=
  if pw ≠ confirmPw then .error (.validation "password")
  else if pw.length < 8 then .error (.validation "password")
  else if name.length < 2 then .error (.validation "name")
  else if (findByEmail db email).isSome then .error (.validation "email")
  else
    let u : User := ⟨nextId, email, name, hashPassword pw, true, now, now⟩
    let db2 := db ++ [u]
    let cache2 := cacheDelete cache ("user_" ++ toString u.id)
    .ok (to_representation u, db2, cache2)

/-- UserSerializer.update: apply the name, recompute the stored hash when
a password is supplied, save, and delete the cache key user_{id} (note:
not the user_auth_{email} key that authValidate reads). -/
def userUpdate (db : DB) (cache : Cache) (inst : User)
    (name? pw? : Option String) : User × DB × Cache :=
  let u1 := match name? with
    | some n => { inst with name := n }
    | none => inst
  let u2 := match pw? with
    | some p => { u1 with passwordHash := hashPassword p }
    | none => u1
  let db2 := db.map (fun v => if v.id == u2.id then u2 else v)
  let cache2 := cacheDelete cache ("user_" ++ toString u2.id)
  (u2, db2, cache2)

/-- ManageUserView PATCH: serializer validation (password equal to its
confirmation when supplied, with the field minimum lengths), then
UserSerializer.update, answering with the public representation. -/
def profileUpdate (db : DB) (cache : Cache) (current : User)
    (name? pw? confirmPw? : Option String) :
    Except RegErr (List (String × String) × DB × Cache) :=
  if pw? ≠ confirmPw? then .error (.validation "password")
  else if pw?.any (fun p => p.length < 8) then .error (.validation "password")
  else if name?.any (fun n => n.length < 2) then .error (.validation "name")
  else
    let r := userUpdate db cache current name? pw?
    .ok (to_representation r.1, r.2.1, r.2.2)

/-- ManageUserView GET: the response is the public representation of the
authenticated caller (get_object returns request.user). -/
def profileRetrieve (u : User) : List (String × String) :=
  to_representation u

/-- A persisted task record (core/models.py: class Task). -/
structure Task where
  id : Nat
  title : String
  description : Option String
  status : String
  priority : String
  due_date : Option Nat
  userId : Nat
deriving DecidableEq

/-- Python exceptions that can escape the task view bodies.  http404 is
django.http.Http404 (raised by DRF get_object_or_404 and by
TaskViewSet.get_object); drfValidationError is
rest_framework.exceptions.ValidationError (raised by is_valid);
djangoValidationError is django.core.exceptions.ValidationError and
taskDoesNotExist is Task.DoesNotExist, the two classes the view catches
by name. -/
inductive PyExc where
  | http404
  | drfValidationError (detail : String)
  | djangoValidationError
  | taskDoesNotExist
deriving DecidableEq

/-- The DRF default exception handler, reached when a view method lets an
exception propagate: Http404 renders 404, a DRF ValidationError renders
400, anything else is a 500. -/
def drfExceptionHandler : PyExc → Nat
  | .http404 => 404
  | .drfValidationError _ => 400
  | _ => 500

/-- TaskViewSet.get_queryset composed with DRF get_object
(task/views.py): the queryset is filtered to the requesting user, the pk
is looked up in it (get_object_or_404 raises Http404 on a miss), and the
overridden get_object raises Http404 again when the owner differs from
the requester.  none stands for a raised Http404. -/
def get_object (tasks : List Task) (requester pk : Nat) : Option Task :=
  match (tasks.filter (fun t => t.userId == requester)).find? (fun t => t.id == pk) with
  | some t => if t.userId != requester then none else some t
  | none => none

/-- TaskSerializer.validate_due_date together with the title field
validator (task/serializers.py): a due date strictly before the current
date raises a DRF ValidationError, and a title shorter than 3 does too.
A field is none when absent from the request. -/
def validateTaskData (title? : Option String) (due? : Option (Option Nat))
    (today : Nat) : Except PyExc Unit :=
  if title?.any (fun t => t.length < 3) then
    .error (.drfValidationError "title")
  else
    match due? with
    | some (some d) =>
      if d < today then .error (.drfValidationError "Due date cannot be in the past")
      else .ok ()
    | _ => .ok ()

/-- Apply a validated patch to a task (TaskSerializer.update: setattr per
supplied field, then save). -/
def applyTaskPatch (t : Task) (title? : Option String)
    (due? : Option (Option Nat)) : Task :=
  let t1 := match title? with
    | some s => { t with title := s }
    | none => t
  match due? with
  | some d => { t1 with due_date := d }
  | none => t1

/-- The body of TaskViewSet.retrieve: get_object (Http404 propagates to
the DRF handler since retrieve has no try block), then serialize. -/
def retrieveTaskEndpoint (tasks : List Task) (requester pk : Nat) : Nat :=
  match get_object tasks requester pk with
  | some _ => 200
  | none => drfExceptionHandler .http404

/-- The try body of TaskViewSet.update: get_object raises Http404,
is_valid raises a DRF ValidationError, then perform_update saves. -/
def updateTaskBody (tasks : List Task) (requester pk : Nat)
    (title? : Option String) (due? : Option (Option Nat)) (today : Nat) :
    Except PyExc (List Task) :=
  match get_object tasks requester pk with
  | none => .error .http404
  | some t =>
    match validateTaskData title? due? today with
    | .error e => .error e
    | .ok _ =>
      .ok (tasks.map (fun x => if x.id == t.id then applyTaskPatch t title? due? else x))

/-- TaskViewSet.update (task/views.py): the try body runs under except
clauses that catch django.core.exceptions.ValidationError as 400, then
Task.DoesNotExist as 404, then any Exception as 500; success is 200. -/
def updateTaskEndpoint (tasks : List Task) (requester pk : Nat)
    (title? : Option String) (due? : Option (Option Nat)) (today : Nat) :
    Nat × List Task :=
  match updateTaskBody tasks requester pk title? due? today with
  | .ok ts => (200, ts)
  | .error .djangoValidationError => (400, tasks)
  | .error .taskDoesNotExist => (404, tasks)
  | .error _ => (500, tasks)

/-- The try body of TaskViewSet.destroy: get_object raises Http404, then
perform_destroy deletes. -/
def destroyTaskBody (tasks : List Task) (requester pk : Nat) :
    Except PyExc (List Task) :=
  match get_object tasks requester pk with
  | none => .error .http404
  | some t => .ok (tasks.filter (fun x => x.id != t.id))

/-- TaskViewSet.destroy (task/views.py): the try body runs under except
clauses that catch Task.DoesNotExist as 404 and any Exception as 500;
success is 204. -/
def destroyTaskEndpoint (tasks : List Task) (requester pk : Nat) :
    Nat × List Task :=
  match destroyTaskBody tasks requester pk with
  | .ok ts => (204, ts)
  | .error .taskDoesNotExist => (404, tasks)
  | .error _ => (500, tasks)

/-- The DRF create flow for TaskViewSet (CreateModelMixin with
perform_create): is_valid failures propagate to the DRF handler as 400,
success persists the task owned by the requester and answers 201. -/
def createTaskEndpoint (tasks : List Task) (requester nextId : Nat)
    (title : String) (due? : Option (Option Nat)) (today : Nat) :
    Nat × List Task :=
  match validateTaskData (some title) due? today with
  | .error e => (drfExceptionHandler e, tasks)
  | .ok _ =>
    (201, tasks ++ [⟨nextId, title, none, "pending", "medium",
      (due?.getD none), requester⟩])

/-- Modelled from the spec: the refresh token of the JWT library
(rest_framework_simplejwt), which is not part of this repository.  It
carries a unique identifier, the bound user identity and an expiry. -/
structure RefreshToken where
  jti : Nat
  userId : Nat
  expiry : Nat
deriving DecidableEq

/-- Modelled from the spec: the persisted revocation blacklist of
refresh-token identifiers. -/
structure JwtState where
  blacklist : List Nat
deriving DecidableEq

/-- Modelled from the spec: token verification fails when the token is
expired or its identifier is present in the revocation blacklist. -/
def RefreshToken.verifies (tok : RefreshToken) (st : JwtState) (now : Nat) : Bool :=
  decide (now < tok.expiry) && !st.blacklist.contains tok.jti

/-- A logout request: an optional bearer access credential (the user id
it would authenticate, if any accompanies the request) and the refresh
field of the body; the refresh component is none when the field is
absent. -/
structure LogoutRequest where
  bearer : Option Nat
  refresh : Option RefreshToken
deriving DecidableEq

/-- Outcome of LogoutView.post: 200 with a message or 400 with an
error body. -/
inductive LogoutResponse where
  | ok (msg : String)
  | badRequest (err : String)
deriving DecidableEq

/-- HTTP status of a logout response. -/
def LogoutResponse.statusCode : LogoutResponse → Nat
  | .ok _ => 200
  | .badRequest _ => 400

/-- LogoutView.post (user/views.py): no authentication or permission
class consults the caller, the view reads only the refresh field; a
missing field is a 400, a token that fails verification is a 400 through
the except clause, and otherwise the identifier is added to the
blacklist.  The token verification itself is modelled from the spec
(simplejwt is not part of this repository). -/
def logoutPost (st : JwtState) (now : Nat) (req : LogoutRequest) :
    LogoutResponse × JwtState :=
  match req.refresh with
  | none => (.badRequest "Refresh token is required", st)
  | some tok =>
    if tok.verifies st now then
      (.ok "Successfully logged out", ⟨tok.jti :: st.blacklist⟩)
    else
      (.badRequest "Invalid refresh token", st)

/-- Modelled from the spec: TokenRefreshView answers 200 with a fresh
access token when the refresh token verifies, and 401 otherwise. -/
def tokenRefresh (st : JwtState) (now : Nat) (tok : RefreshToken) : Nat :=
  if tok.verifies st now then 200 else 401

/-- States reachable from a given JwtState through the operations of the
system: logout is the only operation that writes the blacklist, and
nothing ever removes an entry. -/
inductive JwtReach : JwtState → JwtState → Prop where
  | refl (s : JwtState) : JwtReach s s
  | logout (s t : JwtState) (now : Nat) (req : LogoutRequest) :
      JwtReach s t → JwtReach s (logoutPost t now req).2

/-- The ordered field names of every outward user representation. -/
def allowedUserKeys : List String :=
  ["id", "name", "email", "created_at", "updated_at"]

/-- The payload of a successful registration or profile-update response
carries exactly the allowed keys (vacuous on a validation failure). -/
def regPayloadOk (x : Except RegErr (List (String × String) × DB × Cache)) : Bool :=
  match x with
  | .ok (r, _, _) => r.map Prod.fst == allowedUserKeys
  | .error _ => true

/-- The user object of a successful login response carries exactly the
allowed keys (vacuous on a failure response). -/
def loginPayloadOk (x : LoginResponse × Cache) : Bool :=
  match x.1 with
  | .success r => r.map Prod.fst == allowedUserKeys
  | _ => true

/-- A successful registration stores the password only as its one-way
hash (vacuous on a validation failure). -/
def regStoresHash (db : DB) (cache : Cache) (nextId now : Nat)
    (name email pw confirmPw : String) : Bool :=
  match registerUser db cache nextId now name email pw confirmPw with
  | .ok (_, db2, _) => db2.any (fun v => v.email == email && v.passwordHash == hashPassword pw)
  | .error _ => true

/-- A concrete user whose password is oldpass123, used to evaluate the
model at failing inputs. -/
def aliceOld : User := ⟨1, "a@x.com", "Alice", hashPassword "oldpass123", true, 0, 0⟩

/-- aliceOld after a password change to newpass123. -/
def aliceNew : User := { aliceOld with passwordHash := hashPassword "newpass123" }

/-- A store holding only aliceOld. -/
def aliceDb : DB := [aliceOld]

/-- The empty cache. -/
def emptyCache : Cache := ⟨[]⟩

/-- The cache after a successful login of aliceOld at time 0 populated
the entry under user_auth_a@x.com with a 300 second timeout. -/
def aliceCache : Cache := cacheSet emptyCache "user_auth_a@x.com" aliceOld 300 0

/-- A concrete task owned by user 1. -/
def taskA : Task := ⟨1, "Buy milk", none, "pending", "medium", none, 1⟩

/-! ## Theorems -/

/-- The outward user representation always carries exactly the allowed
keys, whatever the user record holds. -/
theorem to_representation_keys (u : User) :
    (to_representation u).map Prod.fst = allowedUserKeys := rfl

/-- Reading back a freshly set cache key returns the stored snapshot
while the timeout has not elapsed. -/
theorem cacheGet_cacheSet (c : Cache) (k : String) (u : User) (tmo now t : Nat) :
    cacheGet (cacheSet c k u tmo now) k t =
      if t < now + tmo then some u else none := by
  simp [cacheGet, cacheSet]

/-- Deactivating a user keeps every email in place, so the lookup finds
the same record with the active flag cleared. -/
theorem findByEmail_deactivateUser (db : DB) (e : String) (u : User)
    (h : findByEmail db e = some u) :
    findByEmail (deactivateUser db u.id) e = some { u with is_active := false } := by
  induction db with
  | nil => simp [findByEmail] at h
  | cons v tl ih =>
    by_cases hv : v.email == e
    · have hvu : v = u := by
        simpa [findByEmail, List.find?_cons, hv] using h
      subst hvu
      simp [findByEmail, deactivateUser, List.find?_cons, hv]
    · have htl : findByEmail tl e = some u := by
        simpa [findByEmail, List.find?_cons, hv] using h
      have hrec := ih htl
      have hemail : (if v.id == u.id then { v with is_active := false } else v).email = v.email := by
        split <;> rfl
      simp only [deactivateUser, List.map_cons, findByEmail, List.find?_cons, hemail, hv,
        cond_false] at hrec ⊢
      simpa [findByEmail, deactivateUser] using hrec

/-- The blacklist only ever grows along reachable states. -/
theorem JwtReach_blacklist_mono {s t : JwtState} (h : JwtReach s t) :
    ∀ j, j ∈ s.blacklist → j ∈ t.blacklist := by
  induction h with
  | refl => exact fun _ hj => hj
  | logout t now req hr ih =>
    intro j hj
    have hmem := ih j hj
    unfold logoutPost
    cases req.refresh with
    | none => exact hmem
    | some tok =>
      by_cases hv : tok.verifies t now
      · simp only [hv, if_true]
        exact List.mem_cons_of_mem _ hmem
      · simp only [hv, if_false]
        exact hmem

/-- C1: evaluation of the code at the failing input.  A login at time 0
caches the identity of aliceOld under user_auth_a@x.com; a profile
update then changes the password to newpass123, yet it returns the cache
unchanged (it deletes the key user_1, which the login never writes), the
user_auth entry is still readable at time 100, and a login with the OLD
password at time 100 succeeds through the cache hit even though the old
password no longer verifies against the stored hash.  The claim states
that the update removes the entry the login reads and that the
old-password login fails; the code does neither. -/
theorem C1_update_leaves_auth_cache_entry :
    authValidate aliceDb emptyCache 0 "a@x.com" "oldpass123" = .ok (aliceOld, aliceCache) ∧
    profileUpdate aliceDb aliceCache aliceOld none (some "newpass123") (some "newpass123") =
      .ok (to_representation aliceNew, [aliceNew], aliceCache) ∧
    cacheGet aliceCache "user_auth_a@x.com" 100 = some aliceOld ∧
    authValidate [aliceNew] aliceCache 100 "a@x.com" "oldpass123" = .ok (aliceOld, aliceCache) ∧
    checkPassword "oldpass123" aliceNew.passwordHash = false := by decide

/-- C2: evaluation of the code at the failing input.  The cache entry is
populated by a genuine successful verification at time 0, but afterwards
the cache-hit branch accepts the pair (a@x.com, wrongpass) that the
cache-miss branch rejects: the hit path never consults the submitted
password, so the two paths do not accept the same pairs. -/
theorem C2_cache_hit_accepts_wrong_password :
    authValidate aliceDb emptyCache 0 "a@x.com" "oldpass123" = .ok (aliceOld, aliceCache) ∧
    authValidate aliceDb aliceCache 100 "a@x.com" "wrongpass" = .ok (aliceOld, aliceCache) ∧
    authValidate aliceDb emptyCache 100 "a@x.com" "wrongpass" =
      .error (.authz "Invalid credentials.") ∧
    checkPassword "wrongpass" aliceOld.passwordHash = false := by decide

/-- C3: evaluation of the code at the failing input.  taskA belongs to
user 1.  For user 2, retrieve answers 404 (identically for the
nonexistent id 99), but update and delete answer 500: get_object raises
Http404, which the views catch with the generic except-Exception clause
(the except Task.DoesNotExist clause never fires), so the claim that all
three operations answer 404 fails.  The owner operates normally and the
non-owner never alters the store. -/
theorem C3_foreign_task_update_delete_give_500 :
    retrieveTaskEndpoint [taskA] 2 1 = 404 ∧
    retrieveTaskEndpoint [taskA] 2 99 = 404 ∧
    updateTaskEndpoint [taskA] 2 1 (some "Hacked!!") none 10 = (500, [taskA]) ∧
    destroyTaskEndpoint [taskA] 2 1 = (500, [taskA]) ∧
    retrieveTaskEndpoint [taskA] 1 1 = 200 ∧
    updateTaskEndpoint [taskA] 1 1 (some "Buy bread") none 10 =
      (200, [{ taskA with title := "Buy bread" }]) ∧
    destroyTaskEndpoint [taskA] 1 1 = (204, []) := by decide

/-- C8: evaluation of the code at the failing input.  With the current
date 10, the due-date validator rejects 9 and accepts 10 and 11, and a
create with due date 9 answers 400 as the claim states; but an update
with due date 9 answers 500, because the DRF ValidationError raised by
is_valid is caught by the except-Exception clause of the update view
(the caught ValidationError class is the django one, which is never
raised).  The claim that the update request fails with 400 is wrong. -/
theorem C8_due_date_validation_status_codes :
    validateTaskData none (some (some 9)) 10 =
      .error (.drfValidationError "Due date cannot be in the past") ∧
    validateTaskData none (some (some 10)) 10 = .ok () ∧
    validateTaskData none (some (some 11)) 10 = .ok () ∧
    createTaskEndpoint [] 1 2 "Buy milk" (some (some 9)) 10 = (400, []) ∧
    (createTaskEndpoint [] 1 2 "Buy milk" (some (some 10)) 10).1 = 201 ∧
    (createTaskEndpoint [] 1 2 "Buy milk" (some (some 11)) 10).1 = 201 ∧
    updateTaskEndpoint [taskA] 1 1 none (some (some 9)) 10 = (500, [taskA]) ∧
    (updateTaskEndpoint [taskA] 1 1 none (some (some 11)) 10).1 = 200 := by decide

/-- C6: every outward-facing user representation (registration response,
login response user object, profile retrieval, profile update response)
carries exactly the keys id, name, email, created_at and updated_at, so
password and confirm_password are never present; and a successful
registration stores the password only as its one-way hash. -/
theorem C6_password_never_in_representation
    (u current : User) (db : DB) (cache : Cache) (nextId now : Nat)
    (nm e pw cpw : String) (name? pw? cpw? : Option String) (req : LoginRequest) :
    "password" ∉ (to_representation u).map Prod.fst ∧
    "confirm_password" ∉ (to_representation u).map Prod.fst ∧
    (profileRetrieve u).map Prod.fst = allowedUserKeys ∧
    regPayloadOk (registerUser db cache nextId now nm e pw cpw) = true ∧
    regStoresHash db cache nextId now nm e pw cpw = true ∧
    loginPayloadOk (loginEndpoint db cache now req) = true ∧
    regPayloadOk (profileUpdate db cache current name? pw? cpw?) = true := by
  refine ⟨?_, ?_, to_representation_keys u, ?_, ?_, ?_, ?_⟩
  · rw [to_representation_keys]; decide
  · rw [to_representation_keys]; decide
  · unfold registerUser
    repeat' split
    all_goals simp [regPayloadOk, to_representation_keys]
  · unfold regStoresHash registerUser
    by_cases h1 : pw ≠ cpw
    · simp [h1]
    · by_cases h2 : pw.length < 8
      · simp [h1, h2]
      · by_cases h3 : nm.length < 2
        · simp [h1, h2, h3]
        · by_cases h4 : (findByEmail db e).isSome
          · simp [h1, h2, h3, h4]
          · simp [h1, h2, h3, h4, List.any_append]
  · unfold loginEndpoint
    repeat' split
    all_goals simp [loginPayloadOk, to_representation_keys]
  · unfold profileUpdate
    repeat' split
    all_goals simp [regPayloadOk, to_representation_keys]

/-- C9: the logout view consults no access-token credential: for any
valid, non-blacklisted refresh token the request answers 200 and adds
the identifier to the blacklist, whatever bearer credential (user b1,
user b2 or nothing) accompanies the request, and the response does not
depend on the bearer component at all. -/
theorem C9_logout_ignores_bearer (st : JwtState) (now : Nat)
    (tok : RefreshToken) (b1 b2 : Option Nat)
    (h : tok.verifies st now = true) :
    logoutPost st now ⟨b1, some tok⟩ =
      (.ok "Successfully logged out", ⟨tok.jti :: st.blacklist⟩) ∧
    logoutPost st now ⟨b1, some tok⟩ = logoutPost st now ⟨b2, some tok⟩ ∧
    (LogoutResponse.ok "Successfully logged out").statusCode = 200 ∧
    tok.jti ∈ (logoutPost st now ⟨b1, some tok⟩).2.blacklist := by
  refine ⟨?_, rfl, rfl, ?_⟩
  · simp [logoutPost, h]
  · simp [logoutPost, h]

/-- C9 witness at a concrete valid token. -/
theorem C9_logout_ignores_bearer_witness :
    (RefreshToken.verifies ⟨7, 1, 1000⟩ ⟨[]⟩ 0 = true) ∧
    logoutPost ⟨[]⟩ 0 ⟨some 5, some ⟨7, 1, 1000⟩⟩ =
      (.ok "Successfully logged out", ⟨[7]⟩) :=
  ⟨by decide, (C9_logout_ignores_bearer ⟨[]⟩ 0 ⟨7, 1, 1000⟩ (some 5) none (by decide)).1⟩

/-- C4: once a logout has succeeded on a refresh token, the identifier is
in the blacklist of every subsequently reachable state, and a refresh
attempt with that token answers 401 at every later time, in particular
also before the natural expiry of the token. -/
theorem C4_blacklisted_token_never_refreshes
    (st st1 st2 : JwtState) (now : Nat) (req : LogoutRequest)
    (tok : RefreshToken) (m : String)
    (h1 : req.refresh = some tok)
    (h2 : logoutPost st now req = (.ok m, st1))
    (h3 : JwtReach st1 st2) :
    ∀ now2, tokenRefresh st2 now2 tok = 401 ∧
      RefreshToken.verifies tok st2 now2 = false := by
  have hmem1 : tok.jti ∈ st1.blacklist := by
    unfold logoutPost at h2
    rw [h1] at h2
    by_cases hv : tok.verifies st now
    · simp only [hv, if_true] at h2
      have := congrArg Prod.snd h2
      simp at this
      rw [← this]
      exact List.mem_cons_self _ _
    · simp only [hv, if_false] at h2
      exact absurd (congrArg Prod.fst h2) (by simp)
  have hmem2 : tok.jti ∈ st2.blacklist := JwtReach_blacklist_mono h3 _ hmem1
  intro now2
  have hver : RefreshToken.verifies tok st2 now2 = false := by
    unfold RefreshToken.verifies
    simp [hmem2]
  exact ⟨by unfold tokenRefresh; simp [hver], hver⟩

/-- C4 witness: logging out the token with identifier 7 at time 0, a
refresh at time 5, well before the expiry 1000, answers 401. -/
theorem C4_blacklisted_token_never_refreshes_witness :
    logoutPost ⟨[]⟩ 0 ⟨none, some ⟨7, 1, 1000⟩⟩ =
      (.ok "Successfully logged out", ⟨[7]⟩) ∧
    (5 : Nat) < 1000 ∧
    tokenRefresh ⟨[7]⟩ 5 ⟨7, 1, 1000⟩ = 401 :=
  ⟨by decide, by decide,
    (C4_blacklisted_token_never_refreshes ⟨[]⟩ ⟨[7]⟩ ⟨[7]⟩ 0 ⟨none, some ⟨7, 1, 1000⟩⟩
      ⟨7, 1, 1000⟩ "Successfully logged out" rfl (by decide) (.refl _) 5).1⟩

/-- C5: with no pre-existing cache entry for the email, a login with a
nonexistent email and a login with an existing email but wrong password
produce the very same response value: status 401 with the uniform
invalid-credentials body, leaving the cache untouched; nothing reveals
which half was wrong. -/
theorem C5_login_failures_indistinguishable
    (db : DB) (cache : Cache) (now : Nat) (e1 p1 e2 p2 : String) (u : User)
    (h1 : findByEmail db e1 = none)
    (h2 : findByEmail db e2 = some u)
    (h3 : checkPassword p2 u.passwordHash = false)
    (hc1 : cacheGet cache ("user_auth_" ++ e1) now = none)
    (hc2 : cacheGet cache ("user_auth_" ++ e2) now = none)
    (he1 : e1 ≠ "") (hp1 : p1 ≠ "") (he2 : e2 ≠ "") (hp2 : p2 ≠ "") :
    loginEndpoint db cache now ⟨some e1, some p1⟩ =
      (.unauthorized "Invalid credentials.", cache) ∧
    loginEndpoint db cache now ⟨some e2, some p2⟩ =
      (.unauthorized "Invalid credentials.", cache) ∧
    (LoginResponse.unauthorized "Invalid credentials.").statusCode = 401 := by
  refine ⟨?_, ?_, rfl⟩
  · simp [loginEndpoint, requestFieldErrors, he1, hp1, authValidate, authenticate, h1, hc1]
  · simp [loginEndpoint, requestFieldErrors, he2, hp2, authValidate, authenticate, h2, h3, hc2]

/-- C5 witness: against the store holding aliceOld, the nonexistent
email and the wrong password produce the identical 401 response. -/
theorem C5_login_failures_indistinguishable_witness :
    loginEndpoint aliceDb emptyCache 0 ⟨some "nobody@x.com", some "whatever1"⟩ =
      (.unauthorized "Invalid credentials.", emptyCache) ∧
    loginEndpoint aliceDb emptyCache 0 ⟨some "a@x.com", some "wrongpass"⟩ =
      (.unauthorized "Invalid credentials.", emptyCache) :=
  ⟨(C5_login_failures_indistinguishable aliceDb emptyCache 0 "nobody@x.com" "whatever1"
      "a@x.com" "wrongpass" aliceOld (by decide) (by decide) (by decide) (by decide)
      (by decide) (by decide) (by decide) (by decide) (by decide)).1,
   (C5_login_failures_indistinguishable aliceDb emptyCache 0 "nobody@x.com" "whatever1"
      "a@x.com" "wrongpass" aliceOld (by decide) (by decide) (by decide) (by decide)
      (by decide) (by decide) (by decide) (by decide) (by decide)).2.1⟩

/-- C7: a login request missing the email or the password field answers
400 with a field error naming the missing field, never the 401 used for
bad credentials, and the outcome is the same whatever the store and the
cache hold, with the cache passed through untouched: no lookup happens
before the failure. -/
theorem C7_missing_field_validation_before_lookup
    (db : DB) (cache : Cache) (now : Nat) (req : LoginRequest)
    (h : req.email = none ∨ req.password = none) :
    loginEndpoint db cache now req = (.badRequest (requestFieldErrors req), cache) ∧
    (req.email = none → "email" ∈ requestFieldErrors req) ∧
    (req.password = none → "password" ∈ requestFieldErrors req) ∧
    (∀ db2 cache2, loginEndpoint db2 cache2 now req =
      (.badRequest (requestFieldErrors req), cache2)) ∧
    (LoginResponse.badRequest (requestFieldErrors req)).statusCode = 400 := by
  obtain ⟨e?, p?⟩ := req
  cases e? with
  | none =>
    cases p? with
    | none =>
      refine ⟨?_, fun _ => ?_, fun _ => ?_, fun db2 cache2 => ?_, rfl⟩ <;>
        simp [loginEndpoint, requestFieldErrors]
    | some p =>
      refine ⟨?_, fun _ => ?_, fun hh => ?_, fun db2 cache2 => ?_, rfl⟩
      · simp [loginEndpoint, requestFieldErrors]
      · simp [requestFieldErrors]
      · exact absurd hh (by simp)
      · simp [loginEndpoint, requestFieldErrors]
  | some e =>
    cases p? with
    | none =>
      refine ⟨?_, fun hh => ?_, fun _ => ?_, fun db2 cache2 => ?_, rfl⟩
      · simp [loginEndpoint, requestFieldErrors, List.isEmpty_iff]
      · exact absurd hh (by simp)
      · simp [requestFieldErrors]
      · simp [loginEndpoint, requestFieldErrors, List.isEmpty_iff]
    | some p =>
      rcases h with h | h <;> simp at h

/-- C7 witness: the request missing the password against the store
holding aliceOld answers 400 naming the password field. -/
theorem C7_missing_field_validation_before_lookup_witness :
    loginEndpoint aliceDb emptyCache 0 ⟨some "a@x.com", none⟩ =
      (.badRequest (requestFieldErrors ⟨some "a@x.com", none⟩), emptyCache) ∧
    "password" ∈ requestFieldErrors ⟨some "a@x.com", none⟩ :=
  ⟨(C7_missing_field_validation_before_lookup aliceDb emptyCache 0
      ⟨some "a@x.com", none⟩ (Or.inr rfl)).1,
   (C7_missing_field_validation_before_lookup aliceDb emptyCache 0
      ⟨some "a@x.com", none⟩ (Or.inr rfl)).2.2.1 rfl⟩

/-- C10: when a successful login at time t0 populated the cache entry for
the email while the account was active, a login at any time t1 within
the 300 second timeout still succeeds after the stored record has been
deactivated, because the hit path reads the active flag from the cached
snapshot; the deactivated record is what the store now holds for that
email. -/
theorem C10_cached_login_survives_deactivation
    (db : DB) (cache : Cache) (t0 t1 : Nat) (e p : String) (u : User)
    (he : e ≠ "") (hp : p ≠ "")
    (hfind : findByEmail db e = some u)
    (hact : u.is_active = true)
    (hpw : checkPassword p u.passwordHash = true)
    (hmiss : cacheGet cache ("user_auth_" ++ e) t0 = none)
    (httl : t1 < t0 + 300) :
    authValidate db cache t0 e p =
      .ok (u, cacheSet cache ("user_auth_" ++ e) u 300 t0) ∧
    authValidate (deactivateUser db u.id)
        (cacheSet cache ("user_auth_" ++ e) u 300 t0) t1 e p =
      .ok (u, cacheSet cache ("user_auth_" ++ e) u 300 t0) ∧
    findByEmail (deactivateUser db u.id) e = some { u with is_active := false } := by
  refine ⟨?_, ?_, findByEmail_deactivateUser db e u hfind⟩
  · simp [authValidate, authenticate, hfind, hmiss, he, hp, hpw, hact]
  · simp [authValidate, cacheGet_cacheSet, httl, he, hp, hact]

/-- C10 witness: aliceOld logs in at time 0, the record is deactivated,
and the login at time 100 still succeeds from the cached snapshot. -/
theorem C10_cached_login_survives_deactivation_witness :
    authValidate (deactivateUser aliceDb aliceOld.id)
        (cacheSet emptyCache ("user_auth_" ++ "a@x.com") aliceOld 300 0)
        100 "a@x.com" "oldpass123" =
      .ok (aliceOld, cacheSet emptyCache ("user_auth_" ++ "a@x.com") aliceOld 300 0) :=
  (C10_cached_login_survives_deactivation aliceDb emptyCache 0 100 "a@x.com" "oldpass123"
    aliceOld (by decide) (by decide) (by decide) (by decide) (by decide) (by decide)
    (by decide)).2.1

end TodoApp
